import Mathlib

/-!
FeatureTileSource (osgEarth 2.6, `osgEarthFeatures/FeatureTileSource.cpp`).

A shallow embedding of the tile driver that rasterises vector features:
`initialize`, `setFeatureSource`, the two `createImage` overloads and
`queryAndRenderFeaturesForStyle`.

Conventions of the embedding.

* Pointers that may be null are `Option`s; references are plain values.
* Coordinates are integers: the code only copies them and hands them to its
  collaborators, so no rounding is involved.
* The virtual hooks `preProcess`, `renderFeaturesForStyle`, `postProcess` and
  the call `FeatureSource::createFeatureCursor` are recorded, in call order, as
  `Event`s; the image and build-data arguments, identical in every call of one
  tile, are left out of the events.
* A feature cursor is the finite sequence of features it yields
  (`hasMore`/`nextFeature`); a null cursor is `none`.
* Everything the file calls but does not define (extent reprojection and
  intersection, `Bounds::unionWith`, geometry cloning, the feature-source
  factory, ...) is a field of `Externals`, so every result holds for all
  behaviours of those parts.
* Logging (`OE_WARN`) is not modelled.
-/

namespace osgEarth

/-! Data model -/

/-- Identity of a spatial reference system. -/
abbrev SRS := Nat

/-- An axis-aligned box, `osgEarth::Bounds` restricted to the plane. -/
structure Bounds where
  xMin : Int
  yMin : Int
  xMax : Int
  yMax : Int
deriving DecidableEq, Repr

/-- Box inclusion: `a` lies entirely within `b`. -/
def Bounds.within (a b : Bounds) : Prop :=
  b.xMin ≤ a.xMin ∧ b.yMin ≤ a.yMin ∧ a.xMax ≤ b.xMax ∧ a.yMax ≤ b.yMax

instance (a b : Bounds) : Decidable (a.within b) := by
  unfold Bounds.within
  exact inferInstance

/-- A bounding box tied to a coordinate reference system (`GeoExtent`). -/
structure GeoExtent where
  srs : SRS
  bounds : Bounds
deriving DecidableEq, Repr

/-- A tiling profile, of which only the extent is read here. -/
structure Profile where
  extent : GeoExtent
deriving DecidableEq, Repr

/-- What `FeatureSource::getFeatureProfile` points to. -/
structure FeatureProfile where
  extent : GeoExtent
  profile : Option Profile
deriving DecidableEq, Repr

/-- The values of `Geometry::Type` that the file names. -/
inductive GeometryType where
  | TYPE_UNKNOWN
  | TYPE_POINTSET
  | TYPE_LINESTRING
  | TYPE_POLYGON
deriving DecidableEq, Repr

/-- A geometry: the type `getComponentType` reports and its vertices. -/
structure Geometry where
  componentType : GeometryType
  points : List (Int × Int)
deriving DecidableEq, Repr

/-- A style is opaque to the driver beyond its identity. -/
structure Style where
  name : String
deriving DecidableEq, Repr

/-- The default-constructed style, `Style()`. -/
def Style.empty : Style := { name := "" }

/-- A feature: id, geometry pointer (may be null) and embedded style. -/
structure Feature where
  fid : Nat
  geometry : Option Geometry
  style : Style
deriving DecidableEq, Repr

/-- A quadtree address with the extent `getExtent` derives for it. -/
structure TileKey where
  lod : Nat
  x : Nat
  y : Nat
  extent : GeoExtent
deriving DecidableEq, Repr

/-- A feature query: optional bounds, tile-key hint and attribute filter. -/
structure Query where
  bounds : Option Bounds
  tileKey : Option TileKey
  expression : Option String
deriving DecidableEq, Repr

/-- The default-constructed query, `Query()`. -/
def Query.default : Query := { bounds := none, tileKey := none, expression := none }

/-- A selector: the style name it selects and its sub-query
(`getSelectedStyleName()`, `query().value()`). -/
structure StyleSelector where
  selectedStyleName : String
  query : Query
deriving DecidableEq, Repr

/-- The style sheet, through the three accessors the driver uses. Both style
accessors return pointers. -/
structure StyleSheet where
  getStyle : String → Option Style
  getDefaultStyle : Option Style
  selectors : List StyleSelector

/-- The display layout; the driver reads `tileSizeFactor` (a float in the
source, never used afterwards). -/
structure FeatureDisplayLayout where
  tileSizeFactor : Int
deriving DecidableEq, Repr

/-- A feature source seen through the calls the driver makes. -/
structure FeatureSource where
  getFeatureProfile : Option FeatureProfile
  hasEmbeddedStyles : Bool
  createFeatureCursor : Query → Option (List Feature)

/-- Options from which a feature source can be created by the factory. -/
structure FeatureSourceOptions where
  driver : String
deriving DecidableEq, Repr

/-- The keys of a `Config` that the options of this file write and read;
`geometry_type` is the value of that key, empty when the key is absent. -/
structure Config where
  features : Option FeatureSourceOptions
  styles : Option StyleSheet
  layout : Option FeatureDisplayLayout
  geometry_type : String

/-- The part of `FeatureTileSourceOptions` the driver reads: `conf` is what the
base class returns from `TileSourceOptions::getConfig()`, and `featureSource`
the in-memory source pointer, which no configuration key carries. -/
structure FeatureTileSourceOptions where
  conf : Config
  featureSource : Option FeatureSource
  featureOptions : Option FeatureSourceOptions
  styles : Option StyleSheet
  layout : Option FeatureDisplayLayout
  geometryTypeOverride : Option GeometryType

namespace FeatureTileSourceOptions

/-- `FeatureTileSourceOptions::getConfig` (lines 39-58). -/
def getConfig (self : FeatureTileSourceOptions) : Config :=
  let conf := self.conf
  let conf : Config :=
    match self.featureOptions with
    | some fo => { conf with features := some fo }
    | none => conf
  let conf : Config :=
    match self.styles with
    | some sheet => { conf with styles := some sheet }
    | none => conf
  let conf : Config :=
    match self.layout with
    | some layout => { conf with layout := some layout }
    | none => conf
  match self.geometryTypeOverride with
  | some GeometryType.TYPE_LINESTRING => { conf with geometry_type := "line" }
  | some GeometryType.TYPE_POINTSET => { conf with geometry_type := "point" }
  | some GeometryType.TYPE_POLYGON => { conf with geometry_type := "polygon" }
  | _ => conf

/-- `FeatureTileSourceOptions::fromConfig` (lines 67-82). -/
def fromConfig (self : FeatureTileSourceOptions) (conf : Config) : FeatureTileSourceOptions :=
  let self1 : FeatureTileSourceOptions :=
    match conf.features with
    | some fo => { self with featureOptions := some fo }
    | none => self
  let self2 : FeatureTileSourceOptions :=
    match conf.styles with
    | some sheet => { self1 with styles := some sheet }
    | none => self1
  let self3 : FeatureTileSourceOptions :=
    match conf.layout with
    | some layout => { self2 with layout := some layout }
    | none => self2
  let gt := conf.geometry_type
  if gt = "line" ∨ gt = "lines" ∨ gt = "linestring" then
    { self3 with geometryTypeOverride := some GeometryType.TYPE_LINESTRING }
  else if gt = "point" ∨ gt = "pointset" ∨ gt = "points" then
    { self3 with geometryTypeOverride := some GeometryType.TYPE_POINTSET }
  else if gt = "polygon" ∨ gt = "polygons" then
    { self3 with geometryTypeOverride := some GeometryType.TYPE_POLYGON }
  else self3

/-- The constructor `FeatureTileSourceOptions(const ConfigOptions&)` (lines
32-37): the override starts unset (default `TYPE_UNKNOWN`), then the stored
configuration is read. -/
def new (conf : Config) : FeatureTileSourceOptions :=
  fromConfig
    { conf := conf, featureSource := none, featureOptions := none, styles := none,
      layout := none, geometryTypeOverride := none }
    conf

end FeatureTileSourceOptions

/-- Result of `initialize`. -/
inductive Status where
  | STATUS_OK
  | Error (message : String)
deriving DecidableEq, Repr

/-- Whether a status is an error. -/
def Status.isError : Status → Bool
  | Status.STATUS_OK => false
  | Status.Error _ => true

/-- The pixel formats and data types named by the file. -/
inductive PixelFormat where
  | GL_RGBA
deriving DecidableEq, Repr

/-- Number of channels of a pixel format. -/
def PixelFormat.channels : PixelFormat → Nat
  | PixelFormat.GL_RGBA => 4

/-- The component data types named by the file. -/
inductive DataType where
  | GL_UNSIGNED_BYTE
deriving DecidableEq, Repr

/-- Number of bits of one component. -/
def DataType.bits : DataType → Nat
  | DataType.GL_UNSIGNED_BYTE => 8

/-- What `allocateImage(s, t, r, pixelFormat, type)` fixes of an image. -/
structure Image where
  s : Nat
  t : Nat
  r : Nat
  pixelFormat : PixelFormat
  dataType : DataType
deriving DecidableEq, Repr

/-- The observable calls of one `createImage`, in call order. -/
inductive Event where
  | preProcess
  | createFeatureCursor (query : Query)
  | renderFeaturesForStyle (style : Option Style) (features : List Feature) (imageExtent : GeoExtent)
  | postProcess
deriving DecidableEq, Repr

/-- Whether an event is a call of `renderFeaturesForStyle`. -/
def Event.isRender : Event → Bool
  | Event.renderFeaturesForStyle _ _ _ => true
  | _ => false

/-- Whether an event is a call of `createFeatureCursor`. -/
def Event.isQuery : Event → Bool
  | Event.createFeatureCursor _ => true
  | _ => false

/-- Whether an event is a render call whose feature list contains `f`. -/
def Event.renders (f : Feature) : Event → Bool
  | Event.renderFeaturesForStyle _ features _ => decide (f ∈ features)
  | _ => false

/-- The collaborators the file calls without defining them. -/
structure Externals where
  getGeographicSRS : SRS → SRS
  transform : GeoExtent → SRS → GeoExtent
  intersectionSameSRS : GeoExtent → GeoExtent → GeoExtent
  isValid : GeoExtent → Bool
  unionWith : Bounds → Bounds → Bounds
  cloneAs : Geometry → GeometryType → Option Geometry
  initializeSource : FeatureSource → FeatureSource
  createSource : FeatureSourceOptions → Option FeatureSource
  globalGeodeticProfile : Profile
  renderResult : Option Style → List Feature → GeoExtent → Bool

/-- The driver object: its options and the members the file touches. -/
structure FeatureTileSource where
  options : FeatureTileSourceOptions
  profile : Option Profile
  features : Option FeatureSource
  initialized : Bool
  dataExtents : List GeoExtent
  pixelsPerTile : Nat
  name : String

/-! Operations -/

namespace FeatureTileSource

/-- The constructor (lines 86-103): `_options` is rebuilt from the
configuration of the options passed in (line 88); the source is taken from
`_options`, or created from its feature options; `_initialized` starts false. -/
def new (X : Externals) (options : FeatureTileSourceOptions) (pixelsPerTile : Nat)
    (name : String) : FeatureTileSource :=
  let _options := FeatureTileSourceOptions.new options.getConfig
  { options := _options
    profile := none
    features :=
      match _options.featureSource with
      | some src => some src
      | none =>
        match _options.featureOptions with
        | some fo => X.createSource fo
        | none => none
    initialized := false
    dataExtents := []
    pixelsPerTile := pixelsPerTile
    name := name }

/-- The method `FeatureTileSource::initialize` (lines 105-140); the bare name is
reserved in Lean. -/
def initializeTileSource (X : Externals) (self : FeatureTileSource) : Status × FeatureTileSource :=
  let self1 : FeatureTileSource :=
    match self.profile with
    | none => { self with profile := some X.globalGeodeticProfile }
    | some _ => self
  match self1.features with
  | some fs =>
    let fs1 := X.initializeSource fs
    let self2 : FeatureTileSource := { self1 with features := some fs1 }
    let self3 : FeatureTileSource :=
      match fs1.getFeatureProfile with
      | some featureProfile =>
        match featureProfile.profile with
        | some p => { self2 with dataExtents := self2.dataExtents ++ [p.extent] }
        | none =>
          if X.isValid featureProfile.extent = true then
            { self2 with dataExtents := self2.dataExtents ++ [featureProfile.extent] }
          else self2
      | none => self2
    (Status.STATUS_OK, { self3 with initialized := true })
  | none =>
    (Status.Error "No FeatureSource provided; nothing will be rendered", self1)

/-- `FeatureTileSource::setFeatureSource` (lines 142-153); the argument is a
pointer. The warning of the else branch is a log line only. -/
def setFeatureSource (self : FeatureTileSource) (source : Option FeatureSource) :
    FeatureTileSource :=
  if !self.initialized then
    { self with features := source }
  else
    self

/-- The copy loop of lines 275-295: `cursor` is what is left of the cursor,
`cellFeatures` the list built so far. -/
def copyFeatures (X : Externals) (geometryTypeOverride : Option GeometryType) :
    List Feature → List Feature → List Feature
  | [], cellFeatures => cellFeatures
  | feature :: cursor, cellFeatures =>
    let step : Option Geometry × Feature :=
      match feature.geometry with
      | some geom =>
        match geometryTypeOverride with
        | some ov =>
          if ov ≠ geom.componentType then
            match X.cloneAs geom ov with
            | some geom1 => (some geom1, { feature with geometry := some geom1 })
            | none => (none, feature)
          else (some geom, feature)
        | none => (some geom, feature)
      | none => (none, feature)
    match step.1 with
    | some _ => copyFeatures X geometryTypeOverride cursor (cellFeatures ++ [step.2])
    | none => copyFeatures X geometryTypeOverride cursor cellFeatures

/-- The features a cursor pointer yields: none for a null cursor. -/
def drain (cursor : Option (List Feature)) : List Feature :=
  match cursor with
  | some fs => fs
  | none => []

/-- The extent tested on line 260: both extents taken to the geographic SRS
of the features and intersected there. -/
def queryExtentWGS84 (X : Externals) (featuresExtent imageExtent : GeoExtent) : GeoExtent :=
  let geo := X.getGeographicSRS featuresExtent.srs
  X.intersectionSameSRS (X.transform featuresExtent geo) (X.transform imageExtent geo)

/-- The extent of line 262: the intersection taken back to the features' SRS. -/
def queryExtent (X : Externals) (featuresExtent imageExtent : GeoExtent) : GeoExtent :=
  X.transform (queryExtentWGS84 X featuresExtent imageExtent) featuresExtent.srs

/-- The query of lines 265-268. -/
def localQuery (X : Externals) (featuresExtent imageExtent : GeoExtent) (query : Query) : Query :=
  { query with
    bounds :=
      match query.bounds with
      | some b => some (X.unionWith b (queryExtent X featuresExtent imageExtent).bounds)
      | none => some (queryExtent X featuresExtent imageExtent).bounds }

/-- `FeatureTileSource::queryAndRenderFeaturesForStyle` (lines 246-310), for
the feature source `fs` and feature profile `fp` that `createImage` has found
non-null. Returns the boolean result and the calls made. -/
def queryAndRenderFeaturesForStyle (X : Externals) (self : FeatureTileSource)
    (fs : FeatureSource) (fp : FeatureProfile)
    (style : Option Style) (query : Query) (imageExtent : GeoExtent) : Bool × List Event :=
  let featuresExtent := fp.extent
  if X.isValid (queryExtentWGS84 X featuresExtent imageExtent) = true then
    let lq := localQuery X featuresExtent imageExtent query
    let cursor := fs.createFeatureCursor lq
    let cellFeatures := copyFeatures X self.options.geometryTypeOverride (drain cursor) []
    (X.renderResult style cellFeatures imageExtent,
      [Event.createFeatureCursor lq, Event.renderFeaturesForStyle style cellFeatures imageExtent])
  else
    (false, [])

/-- The overload `createImage(buildData, key, out_image)` (lines 190-243):
the style dispatch. Returns the calls made. -/
def createImageBuildData (X : Externals) (self : FeatureTileSource)
    (fs : FeatureSource) (fp : FeatureProfile) (key : TileKey) : List Event :=
  let styles := self.options.styles
  let imageExtent := key.extent
  let query : Query := { Query.default with tileKey := some key, bounds := some imageExtent.bounds }
  if fs.hasEmbeddedStyles = true then
    Event.createFeatureCursor query ::
      (drain (fs.createFeatureCursor query)).map
        (fun feature => Event.renderFeaturesForStyle (some feature.style) [feature] imageExtent)
  else
    match styles with
    | some sheet =>
      if sheet.selectors.length > 0 then
        sheet.selectors.flatMap (fun sel =>
          (queryAndRenderFeaturesForStyle X self fs fp
            (sheet.getStyle sel.selectedStyleName) sel.query imageExtent).2)
      else
        (queryAndRenderFeaturesForStyle X self fs fp sheet.getDefaultStyle query imageExtent).2
    | none =>
      (queryAndRenderFeaturesForStyle X self fs fp (some Style.empty) query imageExtent).2

/-- `FeatureTileSource::createImage(key, progress)` (lines 155-188): the
image returned (null is `none`) and the calls made. -/
def createImage (X : Externals) (self : FeatureTileSource) (key : TileKey) :
    Option Image × List Event :=
  match self.features with
  | none => (none, [])
  | some fs =>
    match fs.getFeatureProfile with
    | none => (none, [])
    | some fp =>
      let image : Image :=
        { s := self.pixelsPerTile, t := self.pixelsPerTile, r := 1
          pixelFormat := PixelFormat.GL_RGBA, dataType := DataType.GL_UNSIGNED_BYTE }
      let pre := [Event.preProcess]
      let body :=
        match self.options.layout with
        | none => createImageBuildData X self fs fp key
        | some _ =>
          if key.lod = 4 then createImageBuildData X self fs fp key
          else []
      (some image, pre ++ body ++ [Event.postProcess])

/-- The image every successful `createImage` allocates. -/
def allocated (self : FeatureTileSource) : Image :=
  { s := self.pixelsPerTile, t := self.pixelsPerTile, r := 1,
    pixelFormat := PixelFormat.GL_RGBA, dataType := DataType.GL_UNSIGNED_BYTE }

/-- The calls `createImage` makes between its two hooks: the style dispatch,
or nothing when a layout is configured and the level is not 4. -/
def gated (X : Externals) (self : FeatureTileSource) (fs : FeatureSource)
    (fp : FeatureProfile) (key : TileKey) : List Event :=
  match self.options.layout with
  | none => createImageBuildData X self fs fp key
  | some _ => if key.lod = 4 then createImageBuildData X self fs fp key else []

/-- The query the dispatch builds on lines 199-201: the key as hint and the
tile's own bounds. -/
def tileQuery (key : TileKey) : Query :=
  { bounds := some key.extent.bounds, tileKey := some key, expression := none }

/-- The driver with another style sheet pointer in its options. -/
def withStyles (self : FeatureTileSource) (styles : Option StyleSheet) : FeatureTileSource :=
  { self with options := { self.options with styles := styles } }

/-- The driver with another layout in its options. -/
def withLayout (self : FeatureTileSource) (layout : Option FeatureDisplayLayout) :
    FeatureTileSource :=
  { self with options := { self.options with layout := layout } }

/-- The four style modes of the dispatch. -/
inductive StyleMode where
  | embedded
  | selector
  | defaultStyle
  | noStyle
deriving DecidableEq, Repr

/-- The mode picked by the priority the specification states: embedded styles
first, then a sheet with at least one selector, then a sheet, then nothing. -/
def styleMode (fs : FeatureSource) (styles : Option StyleSheet) : StyleMode :=
  if fs.hasEmbeddedStyles = true then StyleMode.embedded
  else
    match styles with
    | some sheet => if sheet.selectors ≠ [] then StyleMode.selector else StyleMode.defaultStyle
    | none => StyleMode.noStyle

/-- The Geometry Coercer as the specification words it: a feature without
geometry is dropped; without an override, or when the component type already
is the override, the feature passes unchanged; otherwise the geometry is cloned
as the override type and the feature is dropped when the clone fails. -/
def coerce (X : Externals) (geometryTypeOverride : Option GeometryType) (f : Feature) :
    Option Feature :=
  match f.geometry with
  | none => none
  | some g =>
    match geometryTypeOverride with
    | none => some f
    | some t =>
      if t = g.componentType then some f
      else (X.cloneAs g t).map (fun g1 => { f with geometry := some g1 })

/-- Driver states that can arise: a freshly constructed driver, followed by
any sequence of `initialize` and `setFeatureSource` calls. -/
inductive Reachable (X : Externals) : FeatureTileSource → Prop where
  | constructed (options : FeatureTileSourceOptions) (pixelsPerTile : Nat) (name : String) :
      Reachable X (new X options pixelsPerTile name)
  | initialized (self : FeatureTileSource) :
      Reachable X self → Reachable X (initializeTileSource X self).2
  | rebound (self : FeatureTileSource) (source : Option FeatureSource) :
      Reachable X self → Reachable X (setFeatureSource self source)

end FeatureTileSource

/-! Test fixtures -/

namespace Fixture

/-- Modelled from the spec: the Extent/CRS Transformer when every extent is
already in one geographic CRS. Reprojection keeps the box, the intersection is
the box intersection, an extent is valid when its box is not inverted, and the
union of two boxes is the smallest box enclosing both. Geometry cloning
succeeds for everything but point sets; rendering reports success. -/
def planar : Externals :=
  { getGeographicSRS := fun _ => 4326
    transform := fun e srs => { e with srs := srs }
    intersectionSameSRS := fun a b =>
      { srs := a.srs
        bounds :=
          { xMin := max a.bounds.xMin b.bounds.xMin
            yMin := max a.bounds.yMin b.bounds.yMin
            xMax := min a.bounds.xMax b.bounds.xMax
            yMax := min a.bounds.yMax b.bounds.yMax } }
    isValid := fun e => decide (e.bounds.xMin ≤ e.bounds.xMax ∧ e.bounds.yMin ≤ e.bounds.yMax)
    unionWith := fun a b =>
      { xMin := min a.xMin b.xMin
        yMin := min a.yMin b.yMin
        xMax := max a.xMax b.xMax
        yMax := max a.yMax b.yMax }
    cloneAs := fun g t =>
      if g.componentType = GeometryType.TYPE_POINTSET then none
      else some { g with componentType := t }
    initializeSource := fun fs => fs
    createSource := fun _ => none
    globalGeodeticProfile := { extent := { srs := 4326, bounds := ⟨-180, -90, 180, 90⟩ } }
    renderResult := fun _ _ _ => true }

/-- A square box in the geographic CRS. -/
def box (lo hi : Int) : GeoExtent := { srs := 4326, bounds := ⟨lo, lo, hi, hi⟩ }

/-- A polygon feature, a point feature and a feature without geometry. -/
def polygonFeature : Feature :=
  { fid := 1, geometry := some ⟨GeometryType.TYPE_POLYGON, [(1, 1), (2, 1), (2, 2)]⟩,
    style := ⟨"own-1"⟩ }

/-- A point feature. -/
def pointFeature : Feature :=
  { fid := 2, geometry := some ⟨GeometryType.TYPE_POINTSET, [(3, 3)]⟩, style := ⟨"own-2"⟩ }

/-- A feature whose geometry pointer is null. -/
def bareFeature : Feature := { fid := 3, geometry := none, style := ⟨"own-3"⟩ }

/-- A feature source over `[0,10] x [0,10]` that answers every query with
the same features, as an in-memory feature list does. -/
def listSource (embedded : Bool) (fs : List Feature) : FeatureSource :=
  { getFeatureProfile := some { extent := box 0 10, profile := none }
    hasEmbeddedStyles := embedded
    createFeatureCursor := fun _ => some fs }

/-- Options with no source, sheet, layout or override. -/
def noOptions : FeatureTileSourceOptions :=
  { conf := { features := none, styles := none, layout := none, geometry_type := "" }
    featureSource := none, featureOptions := none, styles := none, layout := none,
    geometryTypeOverride := none }

/-- A driver with 256-pixel tiles over the given source and options. -/
def driver (src : Option FeatureSource) (options : FeatureTileSourceOptions) :
    FeatureTileSource :=
  { options := options, profile := none, features := src, initialized := false,
    dataExtents := [], pixelsPerTile := 256, name := "layer" }

/-- A tile key whose extent is the square `[lo,hi] x [lo,hi]`. -/
def tile (lod : Nat) (lo hi : Int) : TileKey := { lod := lod, x := 0, y := 0, extent := box lo hi }

/-- A sheet with two selectors, both with an unset sub-query. -/
def twoSelectors : StyleSheet :=
  { getStyle := fun n => some ⟨n⟩
    getDefaultStyle := some ⟨"default"⟩
    selectors := [⟨"roads", Query.default⟩, ⟨"rivers", Query.default⟩] }

/-- A sheet with one selector whose sub-query has no bounds. -/
def oneSelector : StyleSheet :=
  { getStyle := fun n => some ⟨n⟩
    getDefaultStyle := some ⟨"default"⟩
    selectors := [⟨"roads", Query.default⟩] }

/-- A transformer between different reference systems: reprojecting a box to
another system returns a box that encloses the reprojected corners with a
margin of one unit on each side; reprojecting to the same system returns the
box itself. Everything else is as in `planar`. -/
def enlarging : Externals :=
  { planar with
    transform := fun e srs =>
      if e.srs = srs then e
      else
        { srs := srs
          bounds :=
            { xMin := e.bounds.xMin - 1, yMin := e.bounds.yMin - 1
              xMax := e.bounds.xMax + 1, yMax := e.bounds.yMax + 1 } } }

/-- The collaborators of `planar`, except that `unionWith` returns the part
two boxes have in common. -/
def overlapping : Externals :=
  { planar with
    unionWith := fun a b =>
      { xMin := max a.xMin b.xMin
        yMin := max a.yMin b.yMin
        xMax := min a.xMax b.xMax
        yMax := min a.yMax b.yMax } }

/-- The collaborators of `enlarging`, except that `unionWith` returns the
part two boxes have in common. -/
def enlargingOverlapping : Externals :=
  { enlarging with unionWith := overlapping.unionWith }

/-- A feature source whose features are stored in the projected system 32633
over `[0,10] x [0,10]`, with no features. -/
def projectedSource : FeatureSource :=
  { getFeatureProfile :=
      some { extent := { srs := 32633, bounds := ⟨0, 0, 10, 10⟩ }, profile := none }
    hasEmbeddedStyles := false
    createFeatureCursor := fun _ => some [] }

end Fixture

/-! Theorems -/

namespace FeatureTileSource

/-- The options the constructor rebuilds from the configuration carry no
in-memory source, so a source can only come from the factory. -/
theorem new_options_featureSource (X : Externals) (options : FeatureTileSourceOptions)
    (pixelsPerTile : Nat) (name : String) :
    (new X options pixelsPerTile name).options.featureSource = none := by
  simp only [new, FeatureTileSourceOptions.new, FeatureTileSourceOptions.fromConfig]
  split_ifs <;> (repeat' split) <;> rfl

/-- With a source attached, `initialize` keeps it attached (as the source
its own initialisation left it). -/
theorem initialize_features_of_some (X : Externals) (self : FeatureTileSource)
    (fs : FeatureSource) (hf : self.features = some fs) :
    (initializeTileSource X self).2.features = some (X.initializeSource fs) := by
  unfold initializeTileSource
  cases hp : self.profile <;> simp only [hf] <;>
    (cases (X.initializeSource fs).getFeatureProfile with
     | none => rfl
     | some fp =>
       cases hq : fp.profile with
       | some p => simp only [hq]
       | none => by_cases hv : X.isValid fp.extent = true <;> simp [hq, hv])

/-- Without a source, `initialize` leaves the flag and the source alone. -/
theorem initialize_of_none (X : Externals) (self : FeatureTileSource)
    (hf : self.features = none) :
    (initializeTileSource X self).1 =
        Status.Error "No FeatureSource provided; nothing will be rendered" ∧
      (initializeTileSource X self).2.initialized = self.initialized ∧
      (initializeTileSource X self).2.features = none := by
  unfold initializeTileSource
  cases hp : self.profile <;> simp [hf]

/-- A driver that has been marked initialised has a feature source: the
flag is only ever set on the branch that found one, and the source cannot be
replaced afterwards. -/
theorem Reachable.features_of_initialized {X : Externals} {self : FeatureTileSource}
    (h : Reachable X self) : self.initialized = true → self.features ≠ none := by
  induction h with
  | constructed options pixelsPerTile name => intro hi; simp [new] at hi
  | initialized s _ ih =>
    intro hi
    cases hf : s.features with
    | none =>
      rw [(initialize_of_none X s hf).2.1] at hi
      exact absurd hf (ih hi)
    | some fs =>
      rw [initialize_features_of_some X s fs hf]
      simp
  | rebound s source _ ih =>
    intro hi
    unfold setFeatureSource at hi ⊢
    cases hinit : s.initialized with
    | false => simp [hinit] at hi
    | true => simpa [hinit] using ih hinit

/-- With a source attached, `initialize` sets the initialised flag. -/
theorem initialize_sets_flag_of_some (X : Externals) (self : FeatureTileSource)
    (hf : self.features ≠ none) : (initializeTileSource X self).2.initialized = true := by
  cases hs : self.features with
  | none => exact absurd hs hf
  | some fs =>
    unfold initializeTileSource
    cases hp : self.profile <;> simp [hs]

/-- C1. `initialize` returns an error status exactly when no feature source
is attached. On that branch the status is the named error, the call leaves the
initialised flag as it was, and on every reachable driver the flag is false
afterwards. With a source attached the status is `STATUS_OK` and the flag is
set, whatever the profile, style sheet or selectors are. -/
theorem initialize_error_iff_no_feature_source (X : Externals) (self : FeatureTileSource) :
    ((initializeTileSource X self).1.isError = true ↔ self.features = none) ∧
    (self.features = none →
      (initializeTileSource X self).1 =
          Status.Error "No FeatureSource provided; nothing will be rendered" ∧
        (initializeTileSource X self).2.initialized = self.initialized ∧
        (initializeTileSource X self).2.features = none ∧
        (Reachable X self → (initializeTileSource X self).2.initialized = false)) ∧
    (self.features ≠ none →
      (initializeTileSource X self).1 = Status.STATUS_OK ∧
        (initializeTileSource X self).2.initialized = true ∧
        (initializeTileSource X self).2.features ≠ none) := by
  cases hf : self.features with
  | none =>
    obtain ⟨h1, h2, h3⟩ := initialize_of_none X self hf
    refine ⟨?_, ?_, ?_⟩
    · simp [h1, Status.isError]
    · intro _
      refine ⟨h1, h2, h3, ?_⟩
      intro hr
      rw [h2]
      cases hi : self.initialized with
      | false => rfl
      | true => exact absurd hf (hr.features_of_initialized hi)
    · intro h; exact absurd rfl h
  | some fs =>
    have h1 : (initializeTileSource X self).1 = Status.STATUS_OK := by
      unfold initializeTileSource
      cases hp : self.profile <;> simp [hf]
    have h2 : (initializeTileSource X self).2.initialized = true := by
      unfold initializeTileSource
      cases hp : self.profile <;> simp [hf]
    have h3 : (initializeTileSource X self).2.features ≠ none := by
      rw [initialize_features_of_some X self fs hf]
      simp
    refine ⟨?_, ?_, ?_⟩
    · simp [h1, Status.isError]
    · intro h; simp at h
    · intro _; exact ⟨h1, h2, h3⟩

/-- C1 at concrete inputs: a driver constructed from empty options fails to
initialise and stays unmarked; one constructed around a source succeeds. -/
theorem initialize_error_iff_no_feature_source_witness :
    ((initializeTileSource Fixture.planar (new Fixture.planar Fixture.noOptions 256 "layer")).1 =
        Status.Error "No FeatureSource provided; nothing will be rendered" ∧
      (initializeTileSource Fixture.planar
        (new Fixture.planar Fixture.noOptions 256 "layer")).2.initialized = false) ∧
    ((initializeTileSource Fixture.planar
        (Fixture.driver (some (Fixture.listSource false [])) Fixture.noOptions)).1 =
        Status.STATUS_OK ∧
      (initializeTileSource Fixture.planar
        (Fixture.driver (some (Fixture.listSource false [])) Fixture.noOptions)).2.initialized =
        true) :=
  have h1 := (initialize_error_iff_no_feature_source Fixture.planar
    (new Fixture.planar Fixture.noOptions 256 "layer")).2.1 rfl
  have h2 := (initialize_error_iff_no_feature_source Fixture.planar
    (Fixture.driver (some (Fixture.listSource false [])) Fixture.noOptions)).2.2
      (by simp [Fixture.driver])
  ⟨⟨h1.1, h1.2.2.2 (Reachable.constructed _ _ _)⟩, ⟨h2.1, h2.2.1⟩⟩

/-- C2. `setFeatureSource(source)` returns the driver untouched when the
initialised flag is set, in particular after an `initialize` that succeeded,
and otherwise changes the bound source to `source` and nothing else, in
particular after an `initialize` that failed. The initialised flag and all
other members are the same before and after in both cases. -/
theorem setFeatureSource_binds_only_before_initialization (X : Externals)
    (self : FeatureTileSource) (source : Option FeatureSource) :
    (self.initialized = true → setFeatureSource self source = self) ∧
    (self.initialized = false →
      setFeatureSource self source = { self with features := source }) ∧
    (self.features ≠ none →
      setFeatureSource (initializeTileSource X self).2 source = (initializeTileSource X self).2) ∧
    (self.features = none → self.initialized = false →
      setFeatureSource (initializeTileSource X self).2 source =
        { (initializeTileSource X self).2 with features := source }) ∧
    ((setFeatureSource self source).initialized = self.initialized ∧
      (setFeatureSource self source).profile = self.profile ∧
      (setFeatureSource self source).dataExtents = self.dataExtents ∧
      (setFeatureSource self source).pixelsPerTile = self.pixelsPerTile ∧
      (setFeatureSource self source).name = self.name ∧
      (setFeatureSource self source).options = self.options) := by
  have hset : ∀ t : FeatureTileSource, t.initialized = true → setFeatureSource t source = t := by
    intro t ht
    simp [setFeatureSource, ht]
  have hunset : ∀ t : FeatureTileSource, t.initialized = false →
      setFeatureSource t source = { t with features := source } := by
    intro t ht
    simp [setFeatureSource, ht]
  refine ⟨hset self, hunset self, ?_, ?_, ?_⟩
  · intro hf
    exact hset _ ((initialize_sets_flag_of_some X self hf))
  · intro hf hi
    apply hunset
    rw [(initialize_of_none X self hf).2.1]
    exact hi
  · cases hi : self.initialized with
    | false => rw [hunset self hi]; simp [hi]
    | true => rw [hset self hi]; simp [hi]

/-- Shape of `createImage` when source and profile are present. -/
theorem createImage_of_profile (X : Externals) (self : FeatureTileSource) (key : TileKey)
    (fs : FeatureSource) (fp : FeatureProfile)
    (hf : self.features = some fs) (hp : fs.getFeatureProfile = some fp) :
    createImage X self key =
      (some (allocated self), Event.preProcess :: (gated X self fs fp key ++ [Event.postProcess])) := by
  unfold createImage gated allocated
  simp [hf, hp]

/-- Shape of `createImage` without a source. -/
theorem createImage_of_no_source (X : Externals) (self : FeatureTileSource) (key : TileKey)
    (hf : self.features = none) : createImage X self key = (none, []) := by
  unfold createImage
  simp [hf]

/-- Shape of `createImage` when the source has no feature profile. -/
theorem createImage_of_no_profile (X : Externals) (self : FeatureTileSource) (key : TileKey)
    (fs : FeatureSource) (hf : self.features = some fs) (hp : fs.getFeatureProfile = none) :
    createImage X self key = (none, []) := by
  unfold createImage
  simp [hf, hp]

/-- C2 at concrete inputs: after a successful `initialize` the call changes
nothing; after a failed one it binds the source. -/
theorem setFeatureSource_binds_only_before_initialization_witness :
    setFeatureSource
        (initializeTileSource Fixture.planar
          (Fixture.driver (some (Fixture.listSource false [])) Fixture.noOptions)).2
        (some (Fixture.listSource true [])) =
      (initializeTileSource Fixture.planar
        (Fixture.driver (some (Fixture.listSource false [])) Fixture.noOptions)).2 ∧
    ((setFeatureSource
        (initializeTileSource Fixture.planar (Fixture.driver none Fixture.noOptions)).2
        (some (Fixture.listSource true []))).features.map (fun fs => fs.hasEmbeddedStyles)) =
      some true :=
  ⟨(setFeatureSource_binds_only_before_initialization Fixture.planar
      (Fixture.driver (some (Fixture.listSource false [])) Fixture.noOptions)
      (some (Fixture.listSource true []))).2.2.1 (by simp [Fixture.driver]),
   by
    rw [(setFeatureSource_binds_only_before_initialization Fixture.planar
      (Fixture.driver none Fixture.noOptions)
      (some (Fixture.listSource true []))).2.2.2.1 rfl rfl]
    rfl⟩

/-- C3. `createImage(key)` returns null exactly when no feature source is
bound or the bound source has no feature profile, and then makes no call at
all (no pre-process, render or post-process). Otherwise it returns an image
allocated `pixelsPerTile` by `pixelsPerTile` (depth 1) in `GL_RGBA` /
`GL_UNSIGNED_BYTE`, that is 4 channels of 8 bits. -/
theorem createImage_null_iff_no_source_or_profile (X : Externals) (self : FeatureTileSource)
    (key : TileKey) :
    ((createImage X self key).1 = none ↔
      (self.features = none ∨
        ∃ fs, self.features = some fs ∧ fs.getFeatureProfile = none)) ∧
    ((createImage X self key).1 = none → (createImage X self key).2 = []) ∧
    ((createImage X self key).1 ≠ none →
      (createImage X self key).1 =
          some { s := self.pixelsPerTile, t := self.pixelsPerTile, r := 1,
                 pixelFormat := PixelFormat.GL_RGBA, dataType := DataType.GL_UNSIGNED_BYTE } ∧
        ∀ image, (createImage X self key).1 = some image →
          image.s = self.pixelsPerTile ∧ image.t = self.pixelsPerTile ∧
            image.pixelFormat.channels = 4 ∧ image.dataType.bits = 8) := by
  cases hf : self.features with
  | none =>
    rw [createImage_of_no_source X self key hf]
    simp
  | some fs =>
    cases hp : fs.getFeatureProfile with
    | none =>
      rw [createImage_of_no_profile X self key fs hf hp]
      simp [hp]
    | some fp =>
      rw [createImage_of_profile X self key fs fp hf hp]
      refine ⟨?_, ?_, ?_⟩
      · simp [hp]
      · intro h; simp at h
      · intro _
        refine ⟨rfl, ?_⟩
        intro image himg
        simp only [Option.some.injEq] at himg
        subst himg
        exact ⟨rfl, rfl, rfl, rfl⟩

/-- C3 at concrete inputs: without a source there is no image and no call;
with a source and profile the image is 256 by 256. -/
theorem createImage_null_iff_no_source_or_profile_witness :
    (createImage Fixture.planar (Fixture.driver none Fixture.noOptions) (Fixture.tile 3 0 10)
        = (none, [])) ∧
    (createImage Fixture.planar
        (Fixture.driver (some (Fixture.listSource false [])) Fixture.noOptions)
        (Fixture.tile 3 0 10)).1 =
      some { s := 256, t := 256, r := 1, pixelFormat := PixelFormat.GL_RGBA,
             dataType := DataType.GL_UNSIGNED_BYTE } :=
  have h1 := createImage_null_iff_no_source_or_profile Fixture.planar
    (Fixture.driver none Fixture.noOptions) (Fixture.tile 3 0 10)
  have h2 := createImage_null_iff_no_source_or_profile Fixture.planar
    (Fixture.driver (some (Fixture.listSource false [])) Fixture.noOptions) (Fixture.tile 3 0 10)
  ⟨Prod.ext (h1.1.mpr (Or.inl rfl)) (h1.2.1 (h1.1.mpr (Or.inl rfl))),
   (h2.2.2 (by decide)).1⟩

/-- `queryAndRenderFeaturesForStyle` reads nothing of the style sheet. -/
theorem queryAndRender_withStyles (X : Externals) (self : FeatureTileSource)
    (styles : Option StyleSheet) (fs : FeatureSource) (fp : FeatureProfile)
    (style : Option Style) (query : Query) (imageExtent : GeoExtent) :
    queryAndRenderFeaturesForStyle X (withStyles self styles) fs fp style query imageExtent =
      queryAndRenderFeaturesForStyle X self fs fp style query imageExtent := by
  simp [queryAndRenderFeaturesForStyle, withStyles]

/-- C4. The dispatch runs exactly the branch of the mode that the fixed
priority picks: with embedded styles, one singleton render per cursor feature
with the feature's own style; otherwise with a sheet that has selectors, one
`queryAndRenderFeaturesForStyle` per selector and nothing else; otherwise with
a sheet, one call with the sheet's default style; otherwise one call with the
empty style. With embedded styles the calls are the same for every style sheet
(present or not), and with selectors they are the same for every default
style: neither is consulted. -/
theorem dispatch_runs_the_mode_of_fixed_priority (X : Externals) (self : FeatureTileSource)
    (fs : FeatureSource) (fp : FeatureProfile) (key : TileKey) :
    (styleMode fs self.options.styles = StyleMode.embedded →
      createImageBuildData X self fs fp key =
        Event.createFeatureCursor (tileQuery key) ::
          (drain (fs.createFeatureCursor (tileQuery key))).map
            (fun feature =>
              Event.renderFeaturesForStyle (some feature.style) [feature] key.extent)) ∧
    (∀ sheet, self.options.styles = some sheet →
      styleMode fs self.options.styles = StyleMode.selector →
      createImageBuildData X self fs fp key =
        sheet.selectors.flatMap (fun sel =>
          (queryAndRenderFeaturesForStyle X self fs fp
            (sheet.getStyle sel.selectedStyleName) sel.query key.extent).2)) ∧
    (∀ sheet, self.options.styles = some sheet →
      styleMode fs self.options.styles = StyleMode.defaultStyle →
      createImageBuildData X self fs fp key =
        (queryAndRenderFeaturesForStyle X self fs fp
          sheet.getDefaultStyle (tileQuery key) key.extent).2) ∧
    (styleMode fs self.options.styles = StyleMode.noStyle →
      createImageBuildData X self fs fp key =
        (queryAndRenderFeaturesForStyle X self fs fp
          (some Style.empty) (tileQuery key) key.extent).2) ∧
    (fs.hasEmbeddedStyles = true ↔ styleMode fs self.options.styles = StyleMode.embedded) ∧
    (fs.hasEmbeddedStyles = true → ∀ styles : Option StyleSheet,
      createImageBuildData X (withStyles self styles) fs fp key =
        createImageBuildData X self fs fp key) ∧
    (∀ sheet, fs.hasEmbeddedStyles = false → self.options.styles = some sheet →
      sheet.selectors ≠ [] →
      styleMode fs self.options.styles = StyleMode.selector ∧
      ∀ d : Option Style,
        createImageBuildData X (withStyles self (some { sheet with getDefaultStyle := d })) fs fp key =
          createImageBuildData X self fs fp key) := by
  have hq : ({ Query.default with tileKey := some key, bounds := some key.extent.bounds } : Query)
      = tileQuery key := rfl
  refine ⟨?_, ?_, ?_, ?_, ?_, ?_, ?_⟩
  · intro hm
    cases he : fs.hasEmbeddedStyles with
    | true => simp [createImageBuildData, he, hq]
    | false =>
      cases hs : self.options.styles with
      | none => simp [styleMode, he, hs] at hm
      | some sheet => by_cases hsel : sheet.selectors = [] <;> simp [styleMode, he, hs, hsel] at hm
  · intro sheet hs hm
    cases he : fs.hasEmbeddedStyles with
    | true => simp [styleMode, he] at hm
    | false =>
      by_cases hsel : sheet.selectors = []
      · simp [styleMode, he, hs, hsel] at hm
      · have hlen : sheet.selectors.length > 0 := List.length_pos.mpr hsel
        simp [createImageBuildData, he, hs, hlen]
  · intro sheet hs hm
    cases he : fs.hasEmbeddedStyles with
    | true => simp [styleMode, he] at hm
    | false =>
      by_cases hsel : sheet.selectors = []
      · simp [createImageBuildData, he, hs, hsel, hq]
      · simp [styleMode, he, hs, hsel] at hm
  · intro hm
    cases he : fs.hasEmbeddedStyles with
    | true => simp [styleMode, he] at hm
    | false =>
      cases hs : self.options.styles with
      | none => simp [createImageBuildData, he, hs, hq]
      | some sheet => by_cases hsel : sheet.selectors = [] <;> simp [styleMode, he, hs, hsel] at hm
  · cases he : fs.hasEmbeddedStyles with
    | true => simp [styleMode, he]
    | false =>
      cases hs : self.options.styles with
      | none => simp [styleMode, he]
      | some sheet => by_cases hsel : sheet.selectors = [] <;> simp [styleMode, he, hsel]
  · intro he styles
    simp [createImageBuildData, he]
  · intro sheet he hs hsel
    refine ⟨by simp [styleMode, he, hs, hsel], ?_⟩
    intro d
    have hlen : sheet.selectors.length > 0 := List.length_pos.mpr hsel
    have hlen2 : 0 < sheet.selectors.length := hlen
    unfold createImageBuildData
    simp only [he, hs, withStyles, queryAndRender_withStyles]
    simp [hlen2]
    rfl

/-- C4 at a concrete input: a source with embedded styles and a sheet with
two selectors; the dispatch renders the cursor's polygon with its own style. -/
theorem dispatch_runs_the_mode_of_fixed_priority_witness :
    createImageBuildData Fixture.planar
        (Fixture.driver none { Fixture.noOptions with styles := some Fixture.twoSelectors })
        (Fixture.listSource true [Fixture.polygonFeature])
        { extent := Fixture.box 0 10, profile := none } (Fixture.tile 3 0 10) =
      [Event.createFeatureCursor (tileQuery (Fixture.tile 3 0 10)),
       Event.renderFeaturesForStyle (some ⟨"own-1"⟩) [Fixture.polygonFeature]
        (Fixture.box 0 10)] :=
  (dispatch_runs_the_mode_of_fixed_priority Fixture.planar
    (Fixture.driver none { Fixture.noOptions with styles := some Fixture.twoSelectors })
    (Fixture.listSource true [Fixture.polygonFeature])
    { extent := Fixture.box 0 10, profile := none } (Fixture.tile 3 0 10)).1 rfl

/-- The copy loop appends, in cursor order, the coerced features it keeps. -/
theorem copyFeatures_eq_filterMap (X : Externals) (ov : Option GeometryType)
    (cursor cellFeatures : List Feature) :
    copyFeatures X ov cursor cellFeatures = cellFeatures ++ cursor.filterMap (coerce X ov) := by
  induction cursor generalizing cellFeatures with
  | nil => simp [copyFeatures]
  | cons f rest ih =>
    unfold copyFeatures
    cases hg : f.geometry with
    | none => simp [ih, coerce, hg]
    | some g =>
      cases ov with
      | none => simp [ih, coerce, hg]
      | some t =>
        by_cases ht : t = g.componentType
        · subst ht
          simp [ih, coerce, hg]
        · cases hc : X.cloneAs g t with
          | none => simp [ih, coerce, hg, ht, hc]
          | some g1 => simp [ih, coerce, hg, ht, hc]

/-- What `queryAndRenderFeaturesForStyle` calls when the intersection is valid. -/
theorem queryAndRender_of_valid (X : Externals) (self : FeatureTileSource)
    (fs : FeatureSource) (fp : FeatureProfile) (style : Option Style) (query : Query)
    (imageExtent : GeoExtent)
    (hv : X.isValid (queryExtentWGS84 X fp.extent imageExtent) = true) :
    (queryAndRenderFeaturesForStyle X self fs fp style query imageExtent).2 =
      [Event.createFeatureCursor (localQuery X fp.extent imageExtent query),
       Event.renderFeaturesForStyle style
         ((drain (fs.createFeatureCursor (localQuery X fp.extent imageExtent query))).filterMap
           (coerce X self.options.geometryTypeOverride))
         imageExtent] := by
  simp [queryAndRenderFeaturesForStyle, hv, copyFeatures_eq_filterMap]

/-- What `queryAndRenderFeaturesForStyle` does when the intersection is invalid. -/
theorem queryAndRender_of_invalid (X : Externals) (self : FeatureTileSource)
    (fs : FeatureSource) (fp : FeatureProfile) (style : Option Style) (query : Query)
    (imageExtent : GeoExtent)
    (hv : X.isValid (queryExtentWGS84 X fp.extent imageExtent) = false) :
    queryAndRenderFeaturesForStyle X self fs fp style query imageExtent = (false, []) := by
  simp [queryAndRenderFeaturesForStyle, hv]

/-- The dispatch in selector mode. -/
theorem dispatch_of_selectors (X : Externals) (self : FeatureTileSource)
    (fs : FeatureSource) (fp : FeatureProfile) (key : TileKey) (sheet : StyleSheet)
    (he : fs.hasEmbeddedStyles = false) (hs : self.options.styles = some sheet)
    (hsel : sheet.selectors ≠ []) :
    createImageBuildData X self fs fp key =
      sheet.selectors.flatMap (fun sel =>
        (queryAndRenderFeaturesForStyle X self fs fp
          (sheet.getStyle sel.selectedStyleName) sel.query key.extent).2) := by
  have hlen : sheet.selectors.length > 0 := List.length_pos.mpr hsel
  simp [createImageBuildData, he, hs, hlen]

/-- A feature that needs no conversion is kept by the coercer as it is. -/
theorem coerce_of_unconverted (X : Externals) (ov : Option GeometryType) (f : Feature)
    (g : Geometry) (hg : f.geometry = some g) (hov : ov = none ∨ ov = some g.componentType) :
    coerce X ov f = some f := by
  rcases hov with h | h <;> simp [coerce, hg, h]

/-- In default-style and no-style mode the dispatch is one
`queryAndRenderFeaturesForStyle` on the tile query. -/
theorem dispatch_of_unstyled (X : Externals) (self : FeatureTileSource)
    (fs : FeatureSource) (fp : FeatureProfile) (key : TileKey)
    (he : fs.hasEmbeddedStyles = false)
    (hs : self.options.styles = none ∨
      ∃ sheet, self.options.styles = some sheet ∧ sheet.selectors = []) :
    ∃ style, createImageBuildData X self fs fp key =
      (queryAndRenderFeaturesForStyle X self fs fp style (tileQuery key) key.extent).2 := by
  have hq : ({ Query.default with tileKey := some key, bounds := some key.extent.bounds } : Query)
      = tileQuery key := rfl
  rcases hs with hs | ⟨sheet, hs, hsel⟩
  · exact ⟨some Style.empty, by simp [createImageBuildData, he, hs, hq]⟩
  · exact ⟨sheet.getDefaultStyle, by simp [createImageBuildData, he, hs, hsel, hq]⟩

/-- Every call of `queryAndRenderFeaturesForStyle` is a query or a render. -/
theorem queryAndRender_events (X : Externals) (self : FeatureTileSource)
    (fs : FeatureSource) (fp : FeatureProfile) (style : Option Style) (query : Query)
    (imageExtent : GeoExtent) :
    ∀ e ∈ (queryAndRenderFeaturesForStyle X self fs fp style query imageExtent).2,
      e.isQuery = true ∨ e.isRender = true := by
  intro e he
  cases hv : X.isValid (queryExtentWGS84 X fp.extent imageExtent) with
  | false => simp [queryAndRender_of_invalid X self fs fp style query imageExtent hv] at he
  | true =>
    rw [queryAndRender_of_valid X self fs fp style query imageExtent hv] at he
    simp only [List.mem_cons, List.mem_singleton, List.not_mem_nil, or_false] at he
    rcases he with h | h <;> subst h <;> simp [Event.isQuery, Event.isRender]

/-- Every call of the dispatch is a query or a render: the two hooks around
it are not called from inside. -/
theorem dispatch_events (X : Externals) (self : FeatureTileSource)
    (fs : FeatureSource) (fp : FeatureProfile) (key : TileKey) :
    ∀ e ∈ createImageBuildData X self fs fp key, e.isQuery = true ∨ e.isRender = true := by
  intro e he
  cases hem : fs.hasEmbeddedStyles with
  | true =>
    have hq : ({ Query.default with tileKey := some key, bounds := some key.extent.bounds }
        : Query) = tileQuery key := rfl
    simp only [createImageBuildData, hem, if_true, hq, List.mem_cons, List.mem_map] at he
    rcases he with h | ⟨f, _, h⟩ <;> subst h <;> simp [Event.isQuery, Event.isRender]
  | false =>
    cases hs : self.options.styles with
    | none =>
      obtain ⟨st, hd⟩ := dispatch_of_unstyled X self fs fp key hem (Or.inl hs)
      rw [hd] at he
      exact queryAndRender_events X self fs fp _ _ _ e he
    | some sheet =>
      by_cases hsel : sheet.selectors = []
      · obtain ⟨st, hd⟩ := dispatch_of_unstyled X self fs fp key hem (Or.inr ⟨sheet, hs, hsel⟩)
        rw [hd] at he
        exact queryAndRender_events X self fs fp _ _ _ e he
      · rw [dispatch_of_selectors X self fs fp key sheet hem hs hsel, List.mem_flatMap] at he
        obtain ⟨sel, _, h⟩ := he
        exact queryAndRender_events X self fs fp _ _ _ e h

/-- Outside embedded-style mode, a tile with an invalid intersection makes
the dispatch call nothing. -/
theorem dispatch_of_invalid (X : Externals) (self : FeatureTileSource)
    (fs : FeatureSource) (fp : FeatureProfile) (key : TileKey)
    (he : fs.hasEmbeddedStyles = false)
    (hv : X.isValid (queryExtentWGS84 X fp.extent key.extent) = false) :
    createImageBuildData X self fs fp key = [] := by
  cases hs : self.options.styles with
  | none =>
    obtain ⟨st, hd⟩ := dispatch_of_unstyled X self fs fp key he (Or.inl hs)
    rw [hd, queryAndRender_of_invalid X self fs fp _ _ _ hv]
  | some sheet =>
    by_cases hsel : sheet.selectors = []
    · obtain ⟨st, hd⟩ := dispatch_of_unstyled X self fs fp key he (Or.inr ⟨sheet, hs, hsel⟩)
      rw [hd, queryAndRender_of_invalid X self fs fp _ _ _ hv]
    · rw [dispatch_of_selectors X self fs fp key sheet he hs hsel]
      simp [queryAndRender_of_invalid X self fs fp _ _ _ hv]

/-- The dispatch in embedded-style mode. -/
theorem dispatch_of_embedded (X : Externals) (self : FeatureTileSource)
    (fs : FeatureSource) (fp : FeatureProfile) (key : TileKey)
    (he : fs.hasEmbeddedStyles = true) :
    createImageBuildData X self fs fp key =
      Event.createFeatureCursor (tileQuery key) ::
        (drain (fs.createFeatureCursor (tileQuery key))).map
          (fun feature =>
            Event.renderFeaturesForStyle (some feature.style) [feature] key.extent) := by
  have hq : ({ Query.default with tileKey := some key, bounds := some key.extent.bounds } : Query)
      = tileQuery key := rfl
  simp [createImageBuildData, he, hq]

/-- C8 (as amended). On a tile whose geographic intersection with the
feature extent is invalid, `createImage` still returns the allocated image,
with pre-process as first and post-process as last call and neither in
between. In selector, default-style and no-style mode these are the only
calls: no cursor is opened and nothing is rendered. In embedded-style mode the
extents are not compared: when the dispatch runs (no layout, or level 4) the
source is queried with the tile query and every feature the cursor yields is
rendered as a singleton with its own style, so nothing is rendered exactly
when the cursor is null or empty; when the dispatch does not run the two hooks
are the only calls. -/
theorem disjoint_tile_renders_nothing_unless_embedded (X : Externals)
    (self : FeatureTileSource) (key : TileKey) (fs : FeatureSource) (fp : FeatureProfile)
    (hf : self.features = some fs) (hp : fs.getFeatureProfile = some fp)
    (hv : X.isValid (queryExtentWGS84 X fp.extent key.extent) = false) :
    (createImage X self key).1 = some (allocated self) ∧
    (∃ body, (createImage X self key).2 = Event.preProcess :: (body ++ [Event.postProcess]) ∧
      Event.preProcess ∉ body ∧ Event.postProcess ∉ body) ∧
    (fs.hasEmbeddedStyles = false →
      (createImage X self key).2 = [Event.preProcess, Event.postProcess]) ∧
    (fs.hasEmbeddedStyles = true → (self.options.layout = none ∨ key.lod = 4) →
      (createImage X self key).2 =
        Event.preProcess :: Event.createFeatureCursor (tileQuery key) ::
          ((drain (fs.createFeatureCursor (tileQuery key))).map
            (fun feature =>
              Event.renderFeaturesForStyle (some feature.style) [feature] key.extent)
            ++ [Event.postProcess]) ∧
      ((createImage X self key).2.filter Event.isRender = [] ↔
        drain (fs.createFeatureCursor (tileQuery key)) = [])) ∧
    (fs.hasEmbeddedStyles = true → self.options.layout ≠ none → key.lod ≠ 4 →
      (createImage X self key).2 = [Event.preProcess, Event.postProcess]) := by
  rw [createImage_of_profile X self key fs fp hf hp]
  have hbody : ∀ e ∈ gated X self fs fp key, e.isQuery = true ∨ e.isRender = true := by
    intro e he
    unfold gated at he
    cases hl : self.options.layout with
    | none => rw [hl] at he; exact dispatch_events X self fs fp key e he
    | some l =>
      rw [hl] at he
      by_cases h4 : key.lod = 4
      · simp only [h4, if_true] at he; exact dispatch_events X self fs fp key e he
      · simp [h4] at he
  refine ⟨rfl, ⟨gated X self fs fp key, rfl, ?_, ?_⟩, ?_, ?_, ?_⟩
  · intro h; have := hbody _ h; simp [Event.isQuery, Event.isRender] at this
  · intro h; have := hbody _ h; simp [Event.isQuery, Event.isRender] at this
  · intro he
    have : gated X self fs fp key = [] := by
      unfold gated
      rw [dispatch_of_invalid X self fs fp key he hv]
      cases self.options.layout <;> simp
    simp [this]
  · intro he hrun
    have hg : gated X self fs fp key = createImageBuildData X self fs fp key := by
      unfold gated
      rcases hrun with h | h
      · simp [h]
      · cases self.options.layout <;> simp [h]
    rw [hg, dispatch_of_embedded X self fs fp key he]
    refine ⟨by simp, ?_⟩
    generalize drain (fs.createFeatureCursor (tileQuery key)) = l
    cases l with
    | nil => simp [List.filter, Event.isRender]
    | cons f rest => simp [List.filter, Event.isRender]
  · intro _ hl h4
    have : gated X self fs fp key = [] := by
      unfold gated
      cases hl2 : self.options.layout with
      | none => exact absurd hl2 hl
      | some l => simp [h4]
    simp [this]

/-- C8 at a concrete input: no style sheet, features over `[0,10] x [0,10]`
that answer every query with a polygon, tile `[20,30] x [20,30]`. Only the two
hooks are called. -/
theorem disjoint_tile_renders_nothing_unless_embedded_witness :
    (createImage Fixture.planar
      (Fixture.driver (some (Fixture.listSource false [Fixture.polygonFeature])) Fixture.noOptions)
      (Fixture.tile 3 20 30)).2 = [Event.preProcess, Event.postProcess] :=
  (disjoint_tile_renders_nothing_unless_embedded Fixture.planar
    (Fixture.driver (some (Fixture.listSource false [Fixture.polygonFeature])) Fixture.noOptions)
    (Fixture.tile 3 20 30) (Fixture.listSource false [Fixture.polygonFeature])
    { extent := Fixture.box 0 10, profile := none } rfl rfl (by decide)).2.2.1 rfl

/-- C8 as stated fails in embedded-style mode: features over
`[0,10] x [0,10]` with embedded styles, tile `[20,30] x [20,30]`, whose
intersection with the feature extent is invalid. The source is queried all the
same and the polygon its cursor yields is rendered. -/
theorem disjoint_tile_rendered_in_embedded_mode :
    Fixture.planar.isValid
        (queryExtentWGS84 Fixture.planar (Fixture.box 0 10) (Fixture.box 20 30)) = false ∧
    (createImage Fixture.planar
      (Fixture.driver (some (Fixture.listSource true [Fixture.polygonFeature])) Fixture.noOptions)
      (Fixture.tile 3 20 30)).2 =
      [Event.preProcess,
       Event.createFeatureCursor
        { bounds := some ⟨20, 20, 30, 30⟩, tileKey := some (Fixture.tile 3 20 30),
          expression := none },
       Event.renderFeaturesForStyle (some ⟨"own-1"⟩) [Fixture.polygonFeature] (Fixture.box 20 30),
       Event.postProcess] := by
  decide

/-- C9 (as amended). In selector, default-style and no-style mode, which
render through `queryAndRenderFeaturesForStyle`, the one list rendered for a
valid intersection is the cursor's features, in cursor order, after the
coercer: a feature without geometry is absent; with an override that differs
from the component type, the feature is absent when the clone fails and carries
the clone when it succeeds; without an override, or when the type already
matches, the feature is passed with its geometry unchanged. In embedded-style
mode no coercion takes place: every cursor feature is rendered as it is. -/
theorem coercion_applies_outside_embedded_mode (X : Externals) (self : FeatureTileSource)
    (fs : FeatureSource) (fp : FeatureProfile) (style : Option Style) (query : Query)
    (key : TileKey)
    (hv : X.isValid (queryExtentWGS84 X fp.extent key.extent) = true) :
    (queryAndRenderFeaturesForStyle X self fs fp style query key.extent).2.filter
        Event.isRender =
      [Event.renderFeaturesForStyle style
        ((drain (fs.createFeatureCursor (localQuery X fp.extent key.extent query))).filterMap
          (coerce X self.options.geometryTypeOverride))
        key.extent] ∧
    (∀ f : Feature, f.geometry = none → coerce X self.options.geometryTypeOverride f = none) ∧
    (∀ (f : Feature) (g : Geometry) (t : GeometryType), f.geometry = some g →
      self.options.geometryTypeOverride = some t → t ≠ g.componentType →
      X.cloneAs g t = none → coerce X self.options.geometryTypeOverride f = none) ∧
    (∀ (f : Feature) (g g1 : Geometry) (t : GeometryType), f.geometry = some g →
      self.options.geometryTypeOverride = some t → t ≠ g.componentType →
      X.cloneAs g t = some g1 →
      coerce X self.options.geometryTypeOverride f = some { f with geometry := some g1 }) ∧
    (∀ (f : Feature) (g : Geometry), f.geometry = some g →
      (self.options.geometryTypeOverride = none ∨
        self.options.geometryTypeOverride = some g.componentType) →
      coerce X self.options.geometryTypeOverride f = some f) ∧
    (fs.hasEmbeddedStyles = true →
      (createImageBuildData X self fs fp key).filter Event.isRender =
        (drain (fs.createFeatureCursor (tileQuery key))).map
          (fun feature =>
            Event.renderFeaturesForStyle (some feature.style) [feature] key.extent)) := by
  refine ⟨?_, ?_, ?_, ?_, ?_, ?_⟩
  · rw [queryAndRender_of_valid X self fs fp style query key.extent hv]
    simp [List.filter, Event.isRender]
  · intro f hg
    simp [coerce, hg]
  · intro f g t hg hov ht hc
    simp [coerce, hg, hov, ht, hc]
  · intro f g g1 t hg hov ht hc
    simp [coerce, hg, hov, ht, hc]
  · intro f g hg hov
    exact coerce_of_unconverted X _ f g hg hov
  · intro he
    rw [dispatch_of_embedded X self fs fp key he]
    generalize drain (fs.createFeatureCursor (tileQuery key)) = l
    simp only [List.filter_cons, Event.isRender]
    induction l with
    | nil => simp
    | cons f rest ih => simp [List.filter, Event.isRender]

/-- C9 at the specification's scenario: override `line`, a cursor yielding one
polygon (cloneable) and one point (not cloneable), no style sheet. The list
rendered holds exactly the polygon converted to a line. -/
theorem coercion_applies_outside_embedded_mode_witness :
    Fixture.planar.cloneAs ⟨GeometryType.TYPE_POINTSET, [(3, 3)]⟩ GeometryType.TYPE_LINESTRING
        = none ∧
    (queryAndRenderFeaturesForStyle Fixture.planar
        (Fixture.driver none
          { Fixture.noOptions with geometryTypeOverride := some GeometryType.TYPE_LINESTRING })
        (Fixture.listSource false [Fixture.polygonFeature, Fixture.pointFeature])
        { extent := Fixture.box 0 10, profile := none } (some Style.empty)
        (tileQuery (Fixture.tile 3 0 10)) (Fixture.tile 3 0 10).extent).2.filter Event.isRender =
      [Event.renderFeaturesForStyle (some Style.empty)
        [{ fid := 1,
           geometry := some ⟨GeometryType.TYPE_LINESTRING, [(1, 1), (2, 1), (2, 2)]⟩,
           style := ⟨"own-1"⟩ }]
        (Fixture.box 0 10)] :=
  ⟨by decide,
   (coercion_applies_outside_embedded_mode Fixture.planar
      (Fixture.driver none
        { Fixture.noOptions with geometryTypeOverride := some GeometryType.TYPE_LINESTRING })
      (Fixture.listSource false [Fixture.polygonFeature, Fixture.pointFeature])
      { extent := Fixture.box 0 10, profile := none } (some Style.empty)
      (tileQuery (Fixture.tile 3 0 10)) (Fixture.tile 3 0 10) (by decide)).1.trans (by decide)⟩

/-- C9 as stated fails in embedded-style mode: override `line`, features with
embedded styles, a cursor yielding a point (which cannot be cloned as a line)
and a feature without geometry. Both are passed to `renderFeaturesForStyle`,
untouched. -/
theorem uncoercible_features_rendered_in_embedded_mode :
    Fixture.planar.cloneAs ⟨GeometryType.TYPE_POINTSET, [(3, 3)]⟩ GeometryType.TYPE_LINESTRING
        = none ∧
    Fixture.bareFeature.geometry = none ∧
    (createImage Fixture.planar
      (Fixture.driver (some (Fixture.listSource true [Fixture.pointFeature, Fixture.bareFeature]))
        { Fixture.noOptions with geometryTypeOverride := some GeometryType.TYPE_LINESTRING })
      (Fixture.tile 3 0 10)).2.filter Event.isRender =
      [Event.renderFeaturesForStyle (some ⟨"own-2"⟩) [Fixture.pointFeature] (Fixture.box 0 10),
       Event.renderFeaturesForStyle (some ⟨"own-3"⟩) [Fixture.bareFeature] (Fixture.box 0 10)] := by
  decide

/-- The dispatch reads nothing of the layout. -/
theorem dispatch_withLayout (X : Externals) (self : FeatureTileSource)
    (layout : Option FeatureDisplayLayout) (fs : FeatureSource) (fp : FeatureProfile)
    (key : TileKey) :
    createImageBuildData X (withLayout self layout) fs fp key =
      createImageBuildData X self fs fp key := by
  simp [createImageBuildData, queryAndRenderFeaturesForStyle, withLayout]

/-- C10. When `createImage` returns an image: without a layout its calls
are pre-process, the calls of one run of the dispatch, post-process; with a
layout they are the same when the key's level is 4, and pre-process followed
directly by post-process at every other level; the value of the layout's tile
size factor changes nothing. The dispatch itself never calls either hook, so
pre-process is called exactly once, first, and post-process exactly once,
last. -/
theorem dispatch_gated_by_layout_and_level_four (X : Externals) (self : FeatureTileSource)
    (key : TileKey) (fs : FeatureSource) (fp : FeatureProfile)
    (hf : self.features = some fs) (hp : fs.getFeatureProfile = some fp) :
    (self.options.layout = none →
      (createImage X self key).2 =
        Event.preProcess :: (createImageBuildData X self fs fp key ++ [Event.postProcess])) ∧
    (∀ layout, self.options.layout = some layout → key.lod = 4 →
      (createImage X self key).2 =
        Event.preProcess :: (createImageBuildData X self fs fp key ++ [Event.postProcess])) ∧
    (∀ layout, self.options.layout = some layout → key.lod ≠ 4 →
      (createImage X self key).2 = [Event.preProcess, Event.postProcess]) ∧
    (∀ a b : FeatureDisplayLayout,
      createImage X (withLayout self (some a)) key =
        createImage X (withLayout self (some b)) key) ∧
    (Event.preProcess ∉ createImageBuildData X self fs fp key ∧
      Event.postProcess ∉ createImageBuildData X self fs fp key) ∧
    ((createImage X self key).2.count Event.preProcess = 1 ∧
      (createImage X self key).2.count Event.postProcess = 1 ∧
      (createImage X self key).2.head? = some Event.preProcess ∧
      (createImage X self key).2.getLast? = some Event.postProcess) := by
  have hpre : Event.preProcess ∉ createImageBuildData X self fs fp key := by
    intro h; have := dispatch_events X self fs fp key _ h
    simp [Event.isQuery, Event.isRender] at this
  have hpost : Event.postProcess ∉ createImageBuildData X self fs fp key := by
    intro h; have := dispatch_events X self fs fp key _ h
    simp [Event.isQuery, Event.isRender] at this
  have hg : gated X self fs fp key = createImageBuildData X self fs fp key ∨
      gated X self fs fp key = [] := by
    unfold gated
    cases self.options.layout with
    | none => exact Or.inl rfl
    | some l => by_cases h4 : key.lod = 4 <;> simp [h4]
  refine ⟨?_, ?_, ?_, ?_, ⟨hpre, hpost⟩, ?_⟩
  · intro hl
    rw [createImage_of_profile X self key fs fp hf hp]
    simp [gated, hl]
  · intro layout hl h4
    rw [createImage_of_profile X self key fs fp hf hp]
    simp [gated, hl, h4]
  · intro layout hl h4
    rw [createImage_of_profile X self key fs fp hf hp]
    simp [gated, hl, h4]
  · intro a b
    rw [createImage_of_profile X (withLayout self (some a)) key fs fp hf hp,
      createImage_of_profile X (withLayout self (some b)) key fs fp hf hp]
    simp [gated, allocated, withLayout, dispatch_withLayout,
      show ∀ l, createImageBuildData X
        { self with options := { self.options with layout := l } } fs fp key =
          createImageBuildData X self fs fp key from
        fun l => dispatch_withLayout X self l fs fp key]
  · rw [createImage_of_profile X self key fs fp hf hp]
    have hpre2 : Event.preProcess ∉ gated X self fs fp key := by
      rcases hg with h | h <;> rw [h] <;> simp [hpre]
    have hpost2 : Event.postProcess ∉ gated X self fs fp key := by
      rcases hg with h | h <;> rw [h] <;> simp [hpost]
    refine ⟨?_, ?_, rfl, ?_⟩
    · simp [List.count_cons, List.count_append, List.count_eq_zero_of_not_mem hpre2]
    · simp [List.count_cons, List.count_append, List.count_eq_zero_of_not_mem hpost2]
    · simp [List.getLast?_cons, List.getLast?_append]

/-- C10 at concrete inputs: with a layout, the no-style driver over a source
yielding one polygon renders it at level 4 and calls only the hooks at level 5. -/
theorem dispatch_gated_by_layout_and_level_four_witness :
    ((createImage Fixture.planar
      (Fixture.driver (some (Fixture.listSource false [Fixture.polygonFeature]))
        { Fixture.noOptions with layout := some ⟨7⟩ })
      (Fixture.tile 5 0 10)).2 = [Event.preProcess, Event.postProcess]) ∧
    ((createImage Fixture.planar
      (Fixture.driver (some (Fixture.listSource false [Fixture.polygonFeature]))
        { Fixture.noOptions with layout := some ⟨7⟩ })
      (Fixture.tile 4 0 10)).2.filter Event.isRender =
        [Event.renderFeaturesForStyle (some Style.empty) [Fixture.polygonFeature]
          (Fixture.box 0 10)]) :=
  ⟨(dispatch_gated_by_layout_and_level_four Fixture.planar
      (Fixture.driver (some (Fixture.listSource false [Fixture.polygonFeature]))
        { Fixture.noOptions with layout := some ⟨7⟩ })
      (Fixture.tile 5 0 10) (Fixture.listSource false [Fixture.polygonFeature])
      { extent := Fixture.box 0 10, profile := none } rfl rfl).2.2.1 ⟨7⟩ rfl (by decide),
   by
    rw [(dispatch_gated_by_layout_and_level_four Fixture.planar
      (Fixture.driver (some (Fixture.listSource false [Fixture.polygonFeature]))
        { Fixture.noOptions with layout := some ⟨7⟩ })
      (Fixture.tile 4 0 10) (Fixture.listSource false [Fixture.polygonFeature])
      { extent := Fixture.box 0 10, profile := none } rfl rfl).2.1 ⟨7⟩ rfl rfl]
    decide⟩

end FeatureTileSource

end osgEarth
